import Mathlib

/-!
Shallow embedding of the speed-estimation pipeline of `main.py`
(AstroPi 2024 Team 2): EXIF timestamp differencing, ORB feature
matching, displacement aggregation, speed computation, and the
orchestration loop's accumulation and finalization behaviour.

Python floats are modelled as real numbers, Hamming distances as
naturals, and Python functions that `raise` return `Except String`.
External collaborators (the camera, `cv2.imread`, the ORB detector and
the brute-force matcher) are modelled from their documented behaviour
where noted.
-/

namespace SpeedPipeline

/-- An image asset as the pipeline observes it: an optional EXIF
`datetime_original` capture time (in seconds since some epoch; `none`
when the tag is missing or unparseable) and optional decoded pixel
content of type `γ` (`none` when `cv2.imread` fails). -/
structure ImageAsset (γ : Type) where
  timestamp : Option ℝ
  pixels : Option γ

/-- `get_time` (main.py 13-38): extract the EXIF capture time, raising
when it is absent or malformed. -/
def get_time {γ : Type} (image : ImageAsset γ) : Except String ℝ :=
  match image.timestamp with
  | some t => Except.ok t
  | none => Except.error "EXIF data does not contain datetime_original"

/-- `get_time_difference` (main.py 41-62): the absolute difference of
the two capture times, in seconds; propagates extraction failures. -/
def get_time_difference {γ : Type} (image_1 image_2 : ImageAsset γ) :
    Except String ℝ := do
  let time_1 ← get_time image_1
  let time_2 ← get_time image_2
  pure |time_2 - time_1|

/-- `convert_to_cv` (main.py 65-85): load both images in grayscale,
raising on the first unreadable one (image 1 is checked first). -/
def convert_to_cv {γ : Type} (image_1 image_2 : ImageAsset γ) :
    Except String (γ × γ) :=
  match image_1.pixels, image_2.pixels with
  | none, _ => Except.error "Failed to read image 1"
  | some _, none => Except.error "Failed to read image 2"
  | some p1, some p2 => Except.ok (p1, p2)

/-- A binary descriptor: a fixed-length bit vector, as matched under
`cv2.NORM_HAMMING`. -/
abbrev Descriptor : Type := List Bool

/-- `calculate_features` (main.py 88-106): run the ORB detector on both
grayscale images.  The detector itself (`cv2.ORB_create(nfeatures
= feature_number).detectAndCompute`) is external to the repository and is
modelled from the spec as a deterministic function `orb` from an image to
a keypoint list (pixel coordinates) and an optional descriptor set
(`none` when extraction yields no descriptors). -/
def calculate_features {γ : Type}
    (orb : γ → List (ℝ × ℝ) × Option (List Descriptor))
    (image_1 image_2 : γ) :
    List (ℝ × ℝ) × List (ℝ × ℝ) × Option (List Descriptor) × Option (List Descriptor) :=
  ((orb image_1).1, (orb image_2).1, (orb image_1).2, (orb image_2).2)

/-- A `cv2.DMatch`: an index into each keypoint/descriptor set and the
descriptor distance of the pairing. -/
structure DMatch where
  queryIdx : ℕ
  trainIdx : ℕ
  distance : ℕ
  deriving DecidableEq

/-- Modelled from the spec: Hamming distance over binary descriptors —
the number of mismatching bit positions (`cv2.NORM_HAMMING`). -/
def hamming (d1 d2 : Descriptor) : ℕ :=
  ((d1.zip d2).filter (fun p => p.1 != p.2)).length

/-- Modelled from the spec: brute-force nearest neighbour — the index
(counting from `j`) and distance of the descriptor of the list closest
to `d`, the earliest index on ties, `none` for an empty list. -/
def bestMatchFrom (d : Descriptor) : List Descriptor → ℕ → Option (ℕ × ℕ)
  | [], _ => none
  | d2 :: rest, j =>
    match bestMatchFrom d rest (j + 1) with
    | none => some (j, hamming d d2)
    | some q => if q.2 < hamming d d2 then some q else some (j, hamming d d2)

/-- The nearest neighbour of `d` among `ds` (index and distance). -/
def bestMatchIn (d : Descriptor) (ds : List Descriptor) : Option (ℕ × ℕ) :=
  bestMatchFrom d ds 0

/-- Modelled from the spec: the cross-checked brute-force match emitted
for query index `i` — its nearest train descriptor `j`, kept only when
`i` is in turn the nearest query descriptor for `j` (mutually-best,
`crossCheck=True`). -/
def crossCheckAt (ds1 ds2 : List Descriptor) (i : ℕ) : Option DMatch :=
  match ds1.get? i with
  | none => none
  | some d =>
    match bestMatchIn d ds2 with
    | none => none
    | some (j, dist) =>
      match ds2.get? j with
      | none => none
      | some d2 =>
        match bestMatchIn d2 ds1 with
        | none => none
        | some (i2, _) => if i2 = i then some ⟨i, j, dist⟩ else none

/-- Modelled from the spec:
`cv2.BFMatcher(cv2.NORM_HAMMING, crossCheck=True).match` — the 1:1,
mutually-best correspondences between the two descriptor sets. -/
def bfMatch (ds1 ds2 : List Descriptor) : List DMatch :=
  (List.range ds1.length).filterMap (crossCheckAt ds1 ds2)

/-- The sort key of main.py 127: ascending `distance`. -/
def matchLE (a b : DMatch) : Prop := a.distance ≤ b.distance

instance : DecidableRel matchLE := fun a b => Nat.decLe a.distance b.distance

instance : IsTotal DMatch matchLE := ⟨fun a b => Nat.le_total a.distance b.distance⟩

instance : IsTrans DMatch matchLE := ⟨fun _ _ _ h1 h2 => Nat.le_trans h1 h2⟩

/-- `calculate_matches` (main.py 109-128): raise when either descriptor
set is `None`; otherwise brute-force cross-checked matching followed by a
stable sort ascending by distance (Python `sorted` is stable, as is
insertion sort). -/
def calculate_matches (descriptors_1 descriptors_2 : Option (List Descriptor)) :
    Except String (List DMatch) :=
  match descriptors_1, descriptors_2 with
  | some ds1, some ds2 => Except.ok (List.insertionSort matchLE (bfMatch ds1 ds2))
  | _, _ => Except.error "Descriptors cannot be None for matching."

/-- `find_matching_coordinates` (main.py 131-156): resolve each match's
two keypoint indices to coordinates; a match with an out-of-range index
is skipped (the `IndexError` handler), and the two coordinates of one
match are appended only after both lookups succeed. -/
def find_matching_coordinates {α : Type} (keypoints_1 keypoints_2 : List α) :
    List DMatch → List α × List α
  | [] => ([], [])
  | m :: rest =>
    let tail := find_matching_coordinates keypoints_1 keypoints_2 rest
    match keypoints_1.get? m.queryIdx, keypoints_2.get? m.trainIdx with
    | some p1, some p2 => (p1 :: tail.1, p2 :: tail.2)
    | _, _ => tail

/-- `calculate_mean_distance` (main.py 159-176): `0.0` when either
coordinate list is empty or the lengths differ; otherwise the arithmetic
mean of the pairwise Euclidean distances (`math.hypot`). -/
noncomputable def calculate_mean_distance
    (coordinates_1 coordinates_2 : List (ℝ × ℝ)) : ℝ :=
  if coordinates_1 = [] ∨ coordinates_2 = [] ∨
      coordinates_1.length ≠ coordinates_2.length then 0
  else
    (((coordinates_1.zip coordinates_2).map
        (fun p => Real.sqrt ((p.1.1 - p.2.1) ^ 2 + (p.1.2 - p.2.2) ^ 2))).sum) /
      (coordinates_1.length : ℝ)

/-- `calculate_speed_in_kmps` (main.py 179-199): raise when the time
difference is zero; otherwise convert the pixel displacement to
kilometers via the GSD (cm per pixel, divided by 100000 cm per km) and
divide by the elapsed time. -/
noncomputable def calculate_speed_in_kmps
    (feature_distance GSD time_difference : ℝ) : Except String ℝ :=
  if time_difference = 0 then
    Except.error "Time difference is zero; cannot compute speed."
  else Except.ok (feature_distance * GSD / 100000 / time_difference)

/-- One iteration of the `try` block of `main` (main.py 234-266), from
the two captures to the cycle's speed; any stage failure short-circuits
the rest of the cycle.  The two `cam.take_photo` calls are modelled as
the `Except`-valued `capture` collaborator result, and the ORB detector
as in `calculate_features`. -/
noncomputable def run_cycle {γ : Type}
    (orb : γ → List (ℝ × ℝ) × Option (List Descriptor))
    (capture : Except String (ImageAsset γ × ImageAsset γ)) (GSD : ℝ) :
    Except String ℝ := do
  let (image_1, image_2) ← capture
  let time_difference ← get_time_difference image_1 image_2
  let (image_1_cv, image_2_cv) ← convert_to_cv image_1 image_2
  let fs := calculate_features orb image_1_cv image_2_cv
  let ms ← calculate_matches fs.2.2.1 fs.2.2.2
  let coords := find_matching_coordinates fs.1 fs.2.1 ms
  let average_feature_distance := calculate_mean_distance coords.1 coords.2
  calculate_speed_in_kmps average_feature_distance GSD time_difference

/-- Main.py 266 and 272-273: on success the cycle's speed is appended to
the running collection; on any failure the exception is caught, logged,
and the collection is left unchanged. -/
def cycle_append (speeds : List ℝ) (result : Except String ℝ) : List ℝ :=
  match result with
  | Except.ok speed => speeds ++ [speed]
  | Except.error _ => speeds

/-- Main.py 278-282: the session's average speed — the arithmetic mean
of the accumulated speeds, `0` when none were accumulated. -/
noncomputable def average_speed (speeds : List ℝ) : ℝ :=
  if speeds = [] then 0 else speeds.sum / (speeds.length : ℝ)

/-- Python `round` to the nearest integer, ties to even. -/
noncomputable def pyRound (x : ℝ) : ℤ :=
  if Int.fract x < 1 / 2 then ⌊x⌋
  else if 1 / 2 < Int.fract x then ⌊x⌋ + 1
  else if ⌊x⌋ % 2 = 0 then ⌊x⌋ else ⌊x⌋ + 1

/-- Python `round(x, 5)`: round to five decimal digits. -/
noncomputable def round_to_5 (x : ℝ) : ℝ := (pyRound (x * 100000) : ℝ) / 100000

/-- Main.py 287: the single value emitted as the session result — the
average speed rounded to five decimal digits. -/
noncomputable def session_result (speeds : List ℝ) : ℝ :=
  round_to_5 (average_speed speeds)

/-!
### Theorems
-/

/-- C1: for nonzero elapsed time, `calculate_speed_in_kmps` returns
exactly `(feature_distance * GSD / 100000) / time_difference`; in
particular at displacement `10`, GSD `100000` and elapsed time `10` it
returns `1`. -/
theorem speed_formula_exact :
    (∀ d g t : ℝ, t ≠ 0 →
      calculate_speed_in_kmps d g t = Except.ok (d * g / 100000 / t)) ∧
    calculate_speed_in_kmps 10 100000 10 = Except.ok 1 := by
  constructor
  · intro d g t ht
    simp [calculate_speed_in_kmps, ht]
  · rw [calculate_speed_in_kmps, if_neg (by norm_num)]
    norm_num

/-- Witness for C1 at displacement `5`, GSD `2`, elapsed time `4`. -/
theorem speed_formula_exact_witness :
    calculate_speed_in_kmps 5 2 4 = Except.ok (5 * 2 / 100000 / 4) :=
  speed_formula_exact.1 5 2 4 (by norm_num)

/-- C2: `calculate_speed_in_kmps` raises exactly when the elapsed time
is zero; at zero it returns no value at all, and for nonzero elapsed
time it never raises. -/
theorem speed_zero_time_error :
    ∀ d g t : ℝ,
      ((∃ e, calculate_speed_in_kmps d g t = Except.error e) ↔ t = 0) ∧
      (t = 0 → ∀ v, calculate_speed_in_kmps d g t ≠ Except.ok v) ∧
      (t ≠ 0 → ∀ e, calculate_speed_in_kmps d g t ≠ Except.error e) := by
  intro d g t
  by_cases ht : t = 0 <;> simp [calculate_speed_in_kmps, ht]

/-- Witness for C2: at elapsed time `0` no value `v` is returned. -/
theorem speed_zero_time_error_witness :
    calculate_speed_in_kmps 1 1 0 ≠ Except.ok 0 :=
  (speed_zero_time_error 1 1 0).2.1 rfl 0

/-- C3 counterexample: with both descriptor sets present but empty,
`calculate_matches` succeeds with zero matches instead of raising. -/
theorem matches_empty_zero_success :
    calculate_matches (some ([] : List Descriptor)) (some []) =
      Except.ok [] := rfl

/-- C3 (amended): `calculate_matches` raises exactly when either
descriptor set is absent (`None`); a present-but-empty descriptor set is
not rejected and yields an empty match list. -/
theorem matches_none_error :
    ∀ descriptors_1 descriptors_2 : Option (List Descriptor),
      ((∃ e, calculate_matches descriptors_1 descriptors_2 = Except.error e) ↔
        (descriptors_1 = none ∨ descriptors_2 = none)) ∧
      (∀ ds1 ds2, descriptors_1 = some ds1 → descriptors_2 = some ds2 →
        calculate_matches descriptors_1 descriptors_2 =
          Except.ok (List.insertionSort matchLE (bfMatch ds1 ds2))) := by
  intro d1 d2
  cases d1 <;> cases d2 <;> simp [calculate_matches]

/-- Witness for C3 (amended): absent first descriptor set raises. -/
theorem matches_none_error_witness :
    ∃ e, calculate_matches none (some ([] : List Descriptor)) =
      Except.error e :=
  (matches_none_error none (some [])).1.mpr (Or.inl rfl)

/-- C7: when both capture timestamps are extractable,
`get_time_difference` returns the absolute timestamp difference, is
symmetric in its two arguments, and is never negative. -/
theorem time_difference_abs_symm {γ : Type} (a b : ImageAsset γ)
    (ta tb : ℝ) (ha : a.timestamp = some ta) (hb : b.timestamp = some tb) :
    get_time_difference a b = Except.ok |tb - ta| ∧
    get_time_difference a b = get_time_difference b a ∧
    0 ≤ |tb - ta| := by
  refine ⟨?_, ?_, abs_nonneg _⟩
  · simp [get_time_difference, get_time, ha, hb, Bind.bind, Except.bind,
      Pure.pure, Except.pure]
  · simp [get_time_difference, get_time, ha, hb, Bind.bind, Except.bind,
      abs_sub_comm]

/-- Witness for C7 at timestamps `1` and `3` (on pixel-less assets). -/
theorem time_difference_abs_symm_witness :
    get_time_difference (ImageAsset.mk (γ := Unit) (some 1) none)
        (ImageAsset.mk (some 3) none) = Except.ok |(3 : ℝ) - 1| ∧
    get_time_difference (ImageAsset.mk (γ := Unit) (some 1) none)
        (ImageAsset.mk (some 3) none) =
      get_time_difference (ImageAsset.mk (γ := Unit) (some 3) none)
        (ImageAsset.mk (some 1) none) ∧
    0 ≤ |(3 : ℝ) - 1| :=
  time_difference_abs_symm _ _ 1 3 rfl rfl

/-- C4: `calculate_mean_distance` is total — on equal-length non-empty
coordinate lists it returns the arithmetic mean of the pairwise
Euclidean distances, on empty or mismatched-length input it returns `0`,
and at `[(0, 0)]`, `[(3, 4)]` it returns `5`. -/
theorem mean_distance_spec :
    (∀ c1 c2 : List (ℝ × ℝ), (c1 = [] ∨ c2 = [] ∨ c1.length ≠ c2.length) →
      calculate_mean_distance c1 c2 = 0) ∧
    (∀ c1 c2 : List (ℝ × ℝ), c1 ≠ [] → c2 ≠ [] → c1.length = c2.length →
      calculate_mean_distance c1 c2 =
        (((c1.zip c2).map
            (fun p => Real.sqrt ((p.1.1 - p.2.1) ^ 2 + (p.1.2 - p.2.2) ^ 2))).sum) /
          (c1.length : ℝ)) ∧
    calculate_mean_distance [(0, 0)] [(3, 4)] = 5 := by
  refine ⟨?_, ?_, ?_⟩
  · intro c1 c2 h
    rw [calculate_mean_distance, if_pos h]
  · intro c1 c2 h1 h2 h3
    rw [calculate_mean_distance, if_neg]
    push_neg
    exact ⟨h1, h2, h3⟩
  · rw [calculate_mean_distance, if_neg (by simp)]
    simp only [List.zip_cons_cons, List.zip_nil_right, List.map_cons,
      List.map_nil, List.sum_cons, List.sum_nil, List.length_cons,
      List.length_nil]
    rw [show ((0 : ℝ) - 3) ^ 2 + ((0 : ℝ) - 4) ^ 2 = 5 ^ 2 by norm_num,
      Real.sqrt_sq (by norm_num)]
    norm_num

/-- Witness for C4: empty coordinate lists give mean `0`. -/
theorem mean_distance_spec_witness :
    calculate_mean_distance [] [] = 0 :=
  mean_distance_spec.1 [] [] (Or.inl rfl)

/-- C5: the session finalization computes the arithmetic mean of the
accumulated speeds (`[1, 2, 3]` yields `2`), yields `0` when none were
accumulated, and the emitted session result is that mean rounded to five
decimal digits (`2` stays `2`). -/
theorem final_average_spec :
    (∀ speeds : List ℝ, speeds ≠ [] →
      average_speed speeds = speeds.sum / (speeds.length : ℝ)) ∧
    average_speed [1, 2, 3] = 2 ∧
    average_speed [] = 0 ∧
    (∀ speeds : List ℝ,
      session_result speeds = round_to_5 (average_speed speeds)) ∧
    session_result [1, 2, 3] = 2 := by
  have havg : average_speed [1, 2, 3] = 2 := by
    rw [average_speed, if_neg (by simp)]
    norm_num
  refine ⟨?_, havg, ?_, fun _ => rfl, ?_⟩
  · intro speeds h
    rw [average_speed, if_neg h]
  · rw [average_speed, if_pos rfl]
  · rw [session_result, havg, round_to_5, pyRound]
    rw [show (2 : ℝ) * 100000 = ((200000 : ℤ) : ℝ) by norm_num]
    rw [Int.fract_intCast, if_pos (by norm_num), Int.floor_intCast]
    norm_num

/-- Witness for C5: the one-element list keeps its sum-over-length. -/
theorem final_average_spec_witness :
    average_speed [1] = [(1 : ℝ)].sum / (([(1 : ℝ)].length : ℕ) : ℝ) :=
  final_average_spec.1 [1] (by simp)

/-- The per-match index resolution of main.py 146-152: the coordinate
pair of a match, `none` when either index is out of range. -/
def resolve_match {α : Type} (keypoints_1 keypoints_2 : List α)
    (m : DMatch) : Option (α × α) :=
  (keypoints_1.get? m.queryIdx).bind
    (fun p1 => (keypoints_2.get? m.trainIdx).map (fun p2 => (p1, p2)))

lemma find_matching_coordinates_zip {α : Type}
    (keypoints_1 keypoints_2 : List α) (ms : List DMatch) :
    (find_matching_coordinates keypoints_1 keypoints_2 ms).1.zip
      (find_matching_coordinates keypoints_1 keypoints_2 ms).2 =
      ms.filterMap (resolve_match keypoints_1 keypoints_2) := by
  induction ms with
  | nil => rfl
  | cons m rest ih =>
    simp only [find_matching_coordinates, List.filterMap_cons, resolve_match]
    cases hq : keypoints_1.get? m.queryIdx with
    | none => simpa [resolve_match] using ih
    | some p1 =>
      cases ht : keypoints_2.get? m.trainIdx with
      | none => simpa [resolve_match] using ih
      | some p2 => simpa [resolve_match] using ih

lemma find_matching_coordinates_length {α : Type}
    (keypoints_1 keypoints_2 : List α) (ms : List DMatch) :
    (find_matching_coordinates keypoints_1 keypoints_2 ms).1.length =
      (find_matching_coordinates keypoints_1 keypoints_2 ms).2.length := by
  induction ms with
  | nil => rfl
  | cons m rest ih =>
    simp only [find_matching_coordinates]
    cases hq : keypoints_1.get? m.queryIdx with
    | none => simpa using ih
    | some p1 =>
      cases ht : keypoints_2.get? m.trainIdx with
      | none => simpa using ih
      | some p2 => simpa using ih

/-- C9: `find_matching_coordinates` resolves exactly the matches whose
two indices are in range, in order — an out-of-range match is skipped
without aborting the aggregation — and every in-range match contributes
its resolved coordinate pair to the output. -/
theorem coordinates_resolution {α : Type}
    (keypoints_1 keypoints_2 : List α) (ms : List DMatch) :
    ((find_matching_coordinates keypoints_1 keypoints_2 ms).1.zip
        (find_matching_coordinates keypoints_1 keypoints_2 ms).2 =
      ms.filterMap (resolve_match keypoints_1 keypoints_2)) ∧
    (∀ m ∈ ms, ∀ (h1 : m.queryIdx < keypoints_1.length)
        (h2 : m.trainIdx < keypoints_2.length),
      (keypoints_1.get ⟨m.queryIdx, h1⟩, keypoints_2.get ⟨m.trainIdx, h2⟩) ∈
        (find_matching_coordinates keypoints_1 keypoints_2 ms).1.zip
          (find_matching_coordinates keypoints_1 keypoints_2 ms).2) := by
  refine ⟨find_matching_coordinates_zip _ _ _, ?_⟩
  intro m hm h1 h2
  rw [find_matching_coordinates_zip]
  refine List.mem_filterMap.mpr ⟨m, hm, ?_⟩
  rw [resolve_match, List.get?_eq_get h1, List.get?_eq_get h2]
  rfl

/-- Witness for C9: with keypoints `[10]`, `[20]` and the single match
`(0, 0)`, the resolved pair `(10, 20)` is in the zipped output. -/
theorem coordinates_resolution_witness :
    ((10 : ℕ), (20 : ℕ)) ∈
      (find_matching_coordinates [(10 : ℕ)] [(20 : ℕ)] [⟨0, 0, 0⟩]).1.zip
        (find_matching_coordinates [(10 : ℕ)] [(20 : ℕ)] [⟨0, 0, 0⟩]).2 :=
  (coordinates_resolution [10] [20] [⟨0, 0, 0⟩]).2 ⟨0, 0, 0⟩
    (List.mem_singleton.mpr rfl) (by decide) (by decide)

/-- C10: the two coordinate lists returned by
`find_matching_coordinates` always have equal length (a skipped match
drops both coordinates atomically), so the defensive guard of
`calculate_mean_distance` can only fire through emptiness and its
mismatched-length branch is unreachable on pipeline outputs: on any
non-empty output the mean formula applies. -/
theorem coordinates_equal_length (keypoints_1 keypoints_2 : List (ℝ × ℝ))
    (ms : List DMatch) :
    ((find_matching_coordinates keypoints_1 keypoints_2 ms).1.length =
      (find_matching_coordinates keypoints_1 keypoints_2 ms).2.length) ∧
    (((find_matching_coordinates keypoints_1 keypoints_2 ms).1 = [] ∨
        (find_matching_coordinates keypoints_1 keypoints_2 ms).2 = [] ∨
        (find_matching_coordinates keypoints_1 keypoints_2 ms).1.length ≠
          (find_matching_coordinates keypoints_1 keypoints_2 ms).2.length) ↔
      (find_matching_coordinates keypoints_1 keypoints_2 ms).1 = []) ∧
    ((find_matching_coordinates keypoints_1 keypoints_2 ms).1 ≠ [] →
      calculate_mean_distance
          (find_matching_coordinates keypoints_1 keypoints_2 ms).1
          (find_matching_coordinates keypoints_1 keypoints_2 ms).2 =
        ((((find_matching_coordinates keypoints_1 keypoints_2 ms).1.zip
              (find_matching_coordinates keypoints_1 keypoints_2 ms).2).map
            (fun p =>
              Real.sqrt ((p.1.1 - p.2.1) ^ 2 + (p.1.2 - p.2.2) ^ 2))).sum) /
          (((find_matching_coordinates keypoints_1 keypoints_2 ms).1.length : ℕ) : ℝ)) := by
  have hlen := find_matching_coordinates_length keypoints_1 keypoints_2 ms
  have hne : (find_matching_coordinates keypoints_1 keypoints_2 ms).1 ≠ [] →
      (find_matching_coordinates keypoints_1 keypoints_2 ms).2 ≠ [] := by
    intro h1 h2
    rw [h2] at hlen
    exact h1 (List.length_eq_zero.mp hlen)
  refine ⟨hlen, ⟨?_, fun h => Or.inl h⟩, ?_⟩
  · rintro (h | h | h)
    · exact h
    · rw [h] at hlen
      exact List.length_eq_zero.mp hlen
    · exact absurd hlen h
  · intro h
    rw [calculate_mean_distance, if_neg]
    push_neg
    exact ⟨h, hne h, hlen⟩

/-- Witness for C10: on the concrete pipeline output for keypoints
`[(0, 0)]`, `[(3, 4)]` and the match `(0, 0)`, the mean-distance formula
applies (the defensive branch is not taken). -/
theorem coordinates_equal_length_witness :
    calculate_mean_distance
        (find_matching_coordinates [((0 : ℝ), (0 : ℝ))] [((3 : ℝ), (4 : ℝ))]
          [⟨0, 0, 0⟩]).1
        (find_matching_coordinates [((0 : ℝ), (0 : ℝ))] [((3 : ℝ), (4 : ℝ))]
          [⟨0, 0, 0⟩]).2 =
      ((((find_matching_coordinates [((0 : ℝ), (0 : ℝ))] [((3 : ℝ), (4 : ℝ))]
              [⟨0, 0, 0⟩]).1.zip
            (find_matching_coordinates [((0 : ℝ), (0 : ℝ))] [((3 : ℝ), (4 : ℝ))]
              [⟨0, 0, 0⟩]).2).map
          (fun p => Real.sqrt ((p.1.1 - p.2.1) ^ 2 + (p.1.2 - p.2.2) ^ 2))).sum) /
        (((find_matching_coordinates [((0 : ℝ), (0 : ℝ))] [((3 : ℝ), (4 : ℝ))]
            [⟨0, 0, 0⟩]).1.length : ℕ) : ℝ) :=
  (coordinates_equal_length [((0 : ℝ), (0 : ℝ))] [((3 : ℝ), (4 : ℝ))]
    [⟨0, 0, 0⟩]).2.2 (by simp [find_matching_coordinates])

lemma crossCheckAt_queryIdx (ds1 ds2 : List Descriptor) (i : ℕ) (m : DMatch)
    (h : crossCheckAt ds1 ds2 i = some m) : m.queryIdx = i := by
  rw [crossCheckAt] at h
  repeat' split at h
  all_goals first
  | exact Option.noConfusion h
  | exact (Option.some.inj h) ▸ rfl

lemma nodup_queryIdx_filterMap (g : ℕ → Option DMatch)
    (hg : ∀ i m, g i = some m → m.queryIdx = i) :
    ∀ l : List ℕ, l.Nodup → ((l.filterMap g).map DMatch.queryIdx).Nodup := by
  intro l
  induction l with
  | nil => intro _; simp
  | cons i rest ih =>
    intro hnd
    rcases List.nodup_cons.mp hnd with ⟨hni, hrest⟩
    rw [List.filterMap_cons]
    cases hgi : g i with
    | none => exact ih hrest
    | some m =>
      rw [List.map_cons]
      refine List.nodup_cons.mpr ⟨?_, ih hrest⟩
      intro hmem
      rcases List.mem_map.mp hmem with ⟨m2, hm2, he⟩
      rcases List.mem_filterMap.mp hm2 with ⟨i2, hi2, hgi2⟩
      have e1 : m2.queryIdx = i2 := hg i2 m2 hgi2
      have e2 : m.queryIdx = i := hg i m hgi
      rw [e1, e2] at he
      exact hni (he ▸ hi2)

lemma bfMatch_queryIdx_nodup (ds1 ds2 : List Descriptor) :
    ((bfMatch ds1 ds2).map DMatch.queryIdx).Nodup :=
  nodup_queryIdx_filterMap (crossCheckAt ds1 ds2)
    (crossCheckAt_queryIdx ds1 ds2) (List.range ds1.length)
    (List.nodup_range _)

/-- C8: for non-empty descriptor sets, the returned match list never
repeats a set-1 index (1:1), every distance is non-negative, and the
list is sorted ascending by distance. -/
theorem matches_one_to_one_sorted (ds1 ds2 : List Descriptor)
    (h1 : ds1 ≠ []) (h2 : ds2 ≠ []) (ms : List DMatch)
    (h : calculate_matches (some ds1) (some ds2) = Except.ok ms) :
    (ms.map DMatch.queryIdx).Nodup ∧
    (∀ m ∈ ms, 0 ≤ m.distance) ∧
    List.Sorted matchLE ms := by
  simp only [calculate_matches, Except.ok.injEq] at h
  subst h
  refine ⟨?_, fun m _ => Nat.zero_le _, List.sorted_insertionSort matchLE _⟩
  have hperm :
      List.Perm
        ((List.insertionSort matchLE (bfMatch ds1 ds2)).map DMatch.queryIdx)
        ((bfMatch ds1 ds2).map DMatch.queryIdx) :=
    (List.perm_insertionSort matchLE _).map _
  exact hperm.nodup_iff.mpr (bfMatch_queryIdx_nodup ds1 ds2)

/-- Witness for C8 on the one-descriptor sets `[[true]]`, `[[false]]`,
whose single cross-checked match is `(0, 0)` at Hamming distance `1`. -/
theorem matches_one_to_one_sorted_witness :
    (([⟨0, 0, 1⟩] : List DMatch).map DMatch.queryIdx).Nodup ∧
    (∀ m ∈ ([⟨0, 0, 1⟩] : List DMatch), 0 ≤ m.distance) ∧
    List.Sorted matchLE [⟨0, 0, 1⟩] :=
  matches_one_to_one_sorted [[true]] [[false]] (by simp) (by simp)
    [⟨0, 0, 1⟩] rfl

/-- C6: cycle atomicity of the sampling loop — a failing cycle leaves
the accumulated speeds unchanged, a cycle's speed is appended exactly
when the whole cycle succeeds, and the failure of any stage (capture,
timestamp extraction of either image, image load of either image,
matching on absent descriptors, zero elapsed time) makes the cycle
fail. -/
theorem cycle_atomicity {γ : Type}
    (orb : γ → List (ℝ × ℝ) × Option (List Descriptor))
    (capture : Except String (ImageAsset γ × ImageAsset γ))
    (GSD : ℝ) (speeds : List ℝ) :
    (∀ e, run_cycle orb capture GSD = Except.error e →
      cycle_append speeds (run_cycle orb capture GSD) = speeds) ∧
    (∀ v, run_cycle orb capture GSD = Except.ok v →
      cycle_append speeds (run_cycle orb capture GSD) = speeds ++ [v]) ∧
    (∀ v, cycle_append speeds (run_cycle orb capture GSD) = speeds ++ [v] →
      run_cycle orb capture GSD = Except.ok v) ∧
    (∀ e, capture = Except.error e →
      run_cycle orb capture GSD = Except.error e) ∧
    (∀ img1 img2, capture = Except.ok (img1, img2) →
      (img1.timestamp = none ∨ img2.timestamp = none) →
      ∃ e, run_cycle orb capture GSD = Except.error e) ∧
    (∀ img1 img2, capture = Except.ok (img1, img2) →
      (img1.pixels = none ∨ img2.pixels = none) →
      ∃ e, run_cycle orb capture GSD = Except.error e) ∧
    (∀ img1 img2 p1 p2, capture = Except.ok (img1, img2) →
      img1.pixels = some p1 → img2.pixels = some p2 →
      ((orb p1).2 = none ∨ (orb p2).2 = none) →
      ∃ e, run_cycle orb capture GSD = Except.error e) ∧
    (∀ img1 img2 t, capture = Except.ok (img1, img2) →
      img1.timestamp = some t → img2.timestamp = some t →
      ∃ e, run_cycle orb capture GSD = Except.error e) := by
  refine ⟨?_, ?_, ?_, ?_, ?_, ?_, ?_, ?_⟩
  · intro e he
    rw [he]
    rfl
  · intro v hv
    rw [hv]
    rfl
  · intro v hv
    cases hr : run_cycle orb capture GSD with
    | error e =>
      rw [hr, cycle_append] at hv
      exact absurd hv (by simp)
    | ok w =>
      rw [hr, cycle_append] at hv
      simp only [List.append_cancel_left_eq, List.cons.injEq, and_true] at hv
      rw [hv]
  · intro e he
    rw [he]
    rfl
  · intro img1 img2 hc hnone
    rw [hc]
    rcases hnone with h | h
    · simp [run_cycle, get_time_difference, get_time, h, Bind.bind,
        Except.bind]
    · cases h1 : img1.timestamp <;>
        simp [run_cycle, get_time_difference, get_time, h, h1, Bind.bind,
          Except.bind, Pure.pure, Except.pure]
  · intro img1 img2 hc hnone
    rw [hc]
    cases h1 : img1.timestamp with
    | none =>
      simp [run_cycle, get_time_difference, get_time, h1, Bind.bind,
        Except.bind]
    | some t1 =>
      cases h2 : img2.timestamp with
      | none =>
        simp [run_cycle, get_time_difference, get_time, h1, h2, Bind.bind,
          Except.bind, Pure.pure, Except.pure]
      | some t2 =>
        rcases hnone with h | h
        · simp [run_cycle, get_time_difference, get_time, convert_to_cv,
            h1, h2, h, Bind.bind, Except.bind, Pure.pure, Except.pure]
        · cases hp1 : img1.pixels <;>
            simp [run_cycle, get_time_difference, get_time, convert_to_cv,
              h1, h2, h, hp1, Bind.bind, Except.bind, Pure.pure, Except.pure]
  · intro img1 img2 p1 p2 hc hp1 hp2 hnone
    rw [hc]
    cases h1 : img1.timestamp with
    | none =>
      simp [run_cycle, get_time_difference, get_time, h1, Bind.bind,
        Except.bind]
    | some t1 =>
      cases h2 : img2.timestamp with
      | none =>
        simp [run_cycle, get_time_difference, get_time, h1, h2, Bind.bind,
          Except.bind, Pure.pure, Except.pure]
      | some t2 =>
        rcases hnone with h | h
        · simp [run_cycle, get_time_difference, get_time, convert_to_cv,
            calculate_features, calculate_matches, h1, h2, hp1, hp2, h,
            Bind.bind, Except.bind, Pure.pure, Except.pure]
        · cases hd1 : (orb p1).2 <;>
            simp [run_cycle, get_time_difference, get_time, convert_to_cv,
              calculate_features, calculate_matches, h1, h2, hp1, hp2, h,
              hd1, Bind.bind, Except.bind, Pure.pure, Except.pure]
  · intro img1 img2 t hc h1 h2
    rw [hc]
    cases hp1 : img1.pixels with
    | none =>
      simp [run_cycle, get_time_difference, get_time, convert_to_cv, h1, h2,
        hp1, Bind.bind, Except.bind, Pure.pure, Except.pure]
    | some p1 =>
      cases hp2 : img2.pixels with
      | none =>
        simp [run_cycle, get_time_difference, get_time, convert_to_cv, h1,
          h2, hp1, hp2, Bind.bind, Except.bind, Pure.pure, Except.pure]
      | some p2 =>
        cases hd1 : (orb p1).2 with
        | none =>
          simp [run_cycle, get_time_difference, get_time, convert_to_cv,
            calculate_features, calculate_matches, h1, h2, hp1, hp2, hd1,
            Bind.bind, Except.bind, Pure.pure, Except.pure]
        | some ds1 =>
          cases hd2 : (orb p2).2 with
          | none =>
            simp [run_cycle, get_time_difference, get_time, convert_to_cv,
              calculate_features, calculate_matches, h1, h2, hp1, hp2, hd1,
              hd2, Bind.bind, Except.bind, Pure.pure, Except.pure]
          | some ds2 =>
            simp [run_cycle, get_time_difference, get_time, convert_to_cv,
              calculate_features, calculate_matches,
              calculate_speed_in_kmps, h1, h2, hp1, hp2, hd1, hd2, sub_self,
              abs_zero, Bind.bind, Except.bind, Pure.pure, Except.pure]

/-- Witness for C6: a failed capture leaves the collection `[1]`
unchanged. -/
theorem cycle_atomicity_witness :
    cycle_append [(1 : ℝ)]
        (run_cycle (γ := Unit) (fun _ => ([], none))
          (Except.error "camera") 1) = [(1 : ℝ)] :=
  (cycle_atomicity (γ := Unit) (fun _ => ([], none)) (Except.error "camera")
    1 [(1 : ℝ)]).1 "camera" rfl

end SpeedPipeline
